import Mathlib

/-!
Shallow embedding of `src/examples/python/basic_staking.py` (Phase Agent
Staking API Python example).  Python dictionaries / JSON values are modelled
by the inductive `Json`; Python exceptions by `PyError`; the aiohttp session
and the Solana SDK are modelled as oracle functions passed in as arguments.
Each network-visible action is recorded in a `Trace` (events and printed log
lines), threaded writer-style through the computation type `Eff`.
-/

/-- A JSON value / Python object as far as this program inspects them. -/
inductive Json where
  | null : Json
  | bool (b : Bool) : Json
  | num (q : ℚ) : Json
  | str (s : String) : Json
  | arr (elems : List Json) : Json
  | obj (fields : List (String × Json)) : Json

/-- Key lookup in the field list of a JSON object (Python dict lookup). -/
def Json.lookup : List (String × Json) → String → Option Json
  | [], _ => none
  | (k, v) :: rest, key => if k = key then some v else Json.lookup rest key

/-- Python truthiness of a value (used by `if validator:` style tests). -/
def Json.truthy : Json → Bool
  | .null => false
  | .bool b => b
  | .num q => q != 0
  | .str s => s != ""
  | .arr elems => !elems.isEmpty
  | .obj fields => !fields.isEmpty

/-- Python numeric coercion: ints/floats and bools act as numbers. -/
def Json.asNumber : Json → Option ℚ
  | .num q => some q
  | .bool b => some (if b then 1 else 0)
  | _ => none

mutual
/-- Python `str()` of a value, as interpolated into f-strings.  (Quotation
marks that Python repr would place around nested strings are elided.) -/
def Json.pyStr : Json → String
  | .null => "None"
  | .bool true => "True"
  | .bool false => "False"
  | .num q => toString q
  | .str s => s
  | .arr elems => "[" ++ Json.pyStrList elems ++ "]"
  | .obj fields => "\x7b" ++ Json.pyStrFields fields ++ "\x7d"

/-- Comma-separated rendering of a list of JSON values. -/
def Json.pyStrList : List Json → String
  | [] => ""
  | [x] => Json.pyStr x
  | x :: y :: rest => Json.pyStr x ++ ", " ++ Json.pyStrList (y :: rest)

/-- Comma-separated rendering of the fields of a JSON object. -/
def Json.pyStrFields : List (String × Json) → String
  | [] => ""
  | [(k, v)] => k ++ ": " ++ Json.pyStr v
  | (k, v) :: kv :: rest => k ++ ": " ++ Json.pyStr v ++ ", " ++ Json.pyStrFields (kv :: rest)
end

/-- Python exceptions that this program can raise. -/
inductive PyError where
  /-- `raise RuntimeError(msg)` -/
  | runtimeError (msg : String) : PyError
  /-- `raise Exception(msg)` — the API-error raise in `build_stake_transaction`. -/
  | exception (msg : String) : PyError
  /-- a transport failure raised by the aiohttp session itself -/
  | clientError (msg : String) : PyError
  /-- `response.json()` failed: body is not JSON -/
  | contentTypeError : PyError
  /-- `.get` called on a non-dict value -/
  | attributeError : PyError
  /-- `[key]` on a dict lacking the key -/
  | keyError (key : String) : PyError
  /-- subscripting / arithmetic on the wrong kind of value -/
  | typeError : PyError
  /-- a failure raised by the Solana SDK or base64 decoding -/
  | solanaError (msg : String) : PyError
deriving DecidableEq, Repr

instance {ε α : Type} [DecidableEq ε] [DecidableEq α] : DecidableEq (Except ε α) := fun x y =>
  match x, y with
  | .ok a, .ok b =>
    if h : a = b then isTrue (by rw [h]) else isFalse (by simp [h])
  | .error a, .error b =>
    if h : a = b then isTrue (by rw [h]) else isFalse (by simp [h])
  | .ok _, .error _ => isFalse (by simp)
  | .error _, .ok _ => isFalse (by simp)

/-- Python `str()` of an exception, as interpolated into f-strings. -/
def PyError.message : PyError → String
  | .runtimeError msg => msg
  | .exception msg => msg
  | .clientError msg => msg
  | .contentTypeError => "Attempt to decode JSON with unexpected mimetype"
  | .attributeError => "object has no attribute get"
  | .keyError key => key
  | .typeError => "unsupported operand type"
  | .solanaError msg => msg

/-- Python `d.get(key, default)` on a value that should be a dict. -/
def pyGet (j : Json) (key : String) (default : Json) : Except PyError Json :=
  match j with
  | .obj fields => .ok ((Json.lookup fields key).getD default)
  | _ => .error .attributeError

/-- Python `d.get(key)` (default `None`) on a value that should be a dict. -/
def pyGet1 (j : Json) (key : String) : Except PyError Json :=
  pyGet j key .null

/-- Python `d[key]` on a value that should be a dict. -/
def pyIndex (j : Json) (key : String) : Except PyError Json :=
  match j with
  | .obj fields =>
    match Json.lookup fields key with
    | some v => .ok v
    | none => .error (.keyError key)
  | _ => .error .typeError

/-- Rational addition, written through `Rat.divInt` (the `Rat.add` of the
library is irreducible, which would block kernel evaluation; this computes
the same sum). -/
def ratAdd (a b : ℚ) : ℚ :=
  Rat.divInt (a.num * b.den + b.num * a.den) ((a.den : Int) * b.den)

/-- Rational division, written through `Rat.divInt` (same remark as for
`ratAdd`). -/
def ratDiv (a b : ℚ) : ℚ :=
  Rat.divInt (a.num * b.den) ((a.den : Int) * b.num)

/-- Python `a + b` on JSON values (numbers add, strings and lists concatenate). -/
def pyAdd (a b : Json) : Except PyError Json :=
  match a.asNumber, b.asNumber with
  | some x, some y => .ok (.num (ratAdd x y))
  | _, _ =>
    match a, b with
    | .str x, .str y => .ok (.str (x ++ y))
    | .arr x, .arr y => .ok (.arr (x ++ y))
    | _, _ => .error .typeError

/-- Python `a / n` (true division by a nonzero literal). -/
def pyDiv (a : Json) (n : ℚ) : Except PyError ℚ :=
  match a.asNumber with
  | some x => .ok (ratDiv x n)
  | none => .error .typeError

/-- Python `j == s` against a string literal: only a string with the same
contents compares equal; every other value compares unequal. -/
def pyEqStr (j : Json) (s : String) : Bool :=
  match j with
  | .str t => t == s
  | _ => false

/-- An HTTP request as assembled by the client (method, URL, headers, JSON
body for POST requests). -/
structure HttpRequest where
  method : String
  url : String
  headers : List (String × String)
  body : Option Json

/-- An HTTP response: status code and body.  `body = none` models a body
that `response.json()` cannot parse. -/
structure HttpResponse where
  status : Nat
  body : Option Json

/-- aiohttp `response.ok`: true when the status code is below 400. -/
def HttpResponse.ok (r : HttpResponse) : Bool :=
  r.status < 400

/-- What the network does with one request: either the session raises a
transport error, or a response arrives. -/
inductive NetResult where
  | failure (msg : String) : NetResult
  | response (r : HttpResponse) : NetResult

/-- Observable actions of one run (network calls, RPC calls, resource
lifecycle). -/
inductive Event where
  /-- the aiohttp session performed (or attempted) this HTTP request -/
  | httpCall (req : HttpRequest) : Event
  /-- `solana_client.get_balance(wallet)` -/
  | rpcGetBalance (wallet : String) : Event
  /-- `transaction.sign(agent_keypair)` -/
  | signTransaction : Event
  /-- `solana_client.send_transaction(transaction)` -/
  | rpcSendTransaction : Event
  /-- `solana_client.confirm_transaction(signature)` -/
  | rpcConfirmTransaction : Event
  /-- `aiohttp.ClientSession()` created on entering the client context -/
  | sessionOpened : Event
  /-- `self.session.close()` in `__aexit__` -/
  | sessionClosed : Event
  /-- `solana_client.close()` in the `finally` block of `main` -/
  | rpcClientClosed : Event

/-- The observable trace of a run: events in order, and printed log lines. -/
structure Trace where
  events : List Event
  log : List String

instance : Append Trace :=
  ⟨fun t₁ t₂ => ⟨t₁.events ++ t₂.events, t₁.log ++ t₂.log⟩⟩

/-- The empty trace. -/
def Trace.empty : Trace := ⟨[], []⟩

/-- A computation of the program: it either returns a value or raises a
Python exception, and it produces a trace.  All environment interaction is
resolved through oracle arguments, so a computation is simply this pair
(an exception monad with a writer for the trace). -/
def Eff (α : Type) : Type :=
  Except PyError α × Trace

/-- Return a value, empty trace. -/
def pureE {α : Type} (a : α) : Eff α :=
  (.ok a, Trace.empty)

/-- Sequence two computations; an exception in the first skips the second. -/
def bindE {α β : Type} (x : Eff α) (f : α → Eff β) : Eff β :=
  match x with
  | (.ok a, t) =>
    let y := f a
    (y.1, t ++ y.2)
  | (.error e, t) => (.error e, t)

instance : Monad Eff where
  pure := pureE
  bind := bindE

/-- Raise a Python exception. -/
def throwE {α : Type} (e : PyError) : Eff α :=
  (.error e, Trace.empty)

/-- `try x except Exception as e: handler e` — run `x`; on an exception run
the handler (which may re-raise). -/
def tryE {α : Type} (x : Eff α) (handler : PyError → Eff α) : Eff α :=
  match x with
  | (.ok a, t) => (.ok a, t)
  | (.error e, t) =>
    let y := handler e
    (y.1, t ++ y.2)

/-- Lift a pure fallible step (dict access, arithmetic, SDK call) into a
computation with no trace of its own. -/
def liftE {α : Type} (x : Except PyError α) : Eff α :=
  (x, Trace.empty)

/-- `print(s)`: appends one log line. -/
def pyPrint (s : String) : Eff Unit :=
  (.ok (), ⟨[], [s]⟩)

/-- Record one event. -/
def emitE (e : Event) : Eff Unit :=
  (.ok (), ⟨[e], []⟩)

/-- Drop trailing slashes — Python rstrip of the slash character on the base URL. -/
def rstripSlash (s : String) : String :=
  String.mk ((s.toList.reverse.dropWhile (fun c => c = '/')).reverse)

/-- `PhaseStakingClient`: API key, normalized base URL, and whether the
aiohttp session exists (`self.session` is `None` until `__aenter__`). -/
structure PhaseStakingClient where
  api_key : String
  base_url : String
  session : Bool

/-- `PhaseStakingClient.__init__`: strips trailing slashes from the base
URL and leaves the session unset. -/
def PhaseStakingClient.init (api_key : String) (base_url : String) : PhaseStakingClient :=
  ⟨api_key, rstripSlash base_url, false⟩

/-- `__aenter__`: create the aiohttp session. -/
def PhaseStakingClient.aenter (c : PhaseStakingClient) : PhaseStakingClient :=
  { c with session := true }

/-- The `RuntimeError` message used by both guarded methods.  (The source
string wraps the words async with in single quotation marks.) -/
def usageErrorMsg : String :=
  "Client not initialized. Use async with context manager."

/-- One `session.post`/`session.get` round trip: records the request event
and either raises the transport failure or yields the response. -/
def sessionRequest (net : HttpRequest → NetResult) (req : HttpRequest) : Eff HttpResponse :=
  (match net req with
   | .failure msg => .error (.clientError msg)
   | .response r => .ok r,
   ⟨[.httpCall req], []⟩)

/-- `await response.json()`: the parsed body, or a content-type error. -/
def responseJson (r : HttpResponse) : Eff Json :=
  liftE (match r.body with
         | some j => .ok j
         | none => .error .contentTypeError)

/-- The POST request assembled by `build_stake_transaction` (lines 57-70):
endpoint `{base_url}/stake/build`, JSON payload with `agentWallet` and
`stakeAmount`, plus `validatorVoteAccount` when a validator was passed,
and JSON/bearer-token headers. -/
def stakeBuildRequest (c : PhaseStakingClient) (agent_wallet : String)
    (stake_amount : ℚ) (validator_vote_account : Option String) : HttpRequest :=
  let payload : List (String × Json) :=
    [("agentWallet", .str agent_wallet), ("stakeAmount", .num stake_amount)]
  let payload :=
    match validator_vote_account with
    | some v => payload ++ [("validatorVoteAccount", Json.str v)]
    | none => payload
  { method := "POST"
    url := c.base_url ++ "/stake/build"
    headers := [("Content-Type", "application/json"),
                ("Authorization", "Bearer " ++ c.api_key)]
    body := some (.obj payload) }

/-- Lines 73-79 of `build_stake_transaction`, the pure part: parse the
response body (`await response.json()`), then on a non-success status raise
`Exception("API Error: " + message)` with the server message (falling back
to the literal `"Unknown API error"`), otherwise return `result["data"]`. -/
def handleBuildResponse (r : HttpResponse) : Except PyError Json := do
  let result ← match r.body with
                | some j => Except.ok j
                | none => Except.error .contentTypeError
  if !r.ok then do
    let errObj ← pyGet result "error" (.obj [])
    let errMsg ← pyGet errObj "message" (.str "Unknown API error")
    Except.error (.exception ("API Error: " ++ errMsg.pyStr))
  else
    pyIndex result "data"

/-- `build_stake_transaction` (lines 37-79): guard on the session, POST the
build request, then handle the response. -/
def PhaseStakingClient.build_stake_transaction (c : PhaseStakingClient)
    (net : HttpRequest → NetResult) (agent_wallet : String) (stake_amount : ℚ)
    (validator_vote_account : Option String) : Eff Json :=
  if !c.session then
    throwE (.runtimeError usageErrorMsg)
  else do
    let req := stakeBuildRequest c agent_wallet stake_amount validator_vote_account
    let response ← sessionRequest net req
    liftE (handleBuildResponse response)

/-- The GET request of `check_health` (line 156). -/
def healthRequest (c : PhaseStakingClient) : HttpRequest :=
  { method := "GET"
    url := c.base_url ++ "/health"
    headers := []
    body := none }

/-- The condition of line 159:
`response.ok and result.get("success") and
 result.get("data", \x7b\x7d).get("status") == "healthy"`,
with Python short-circuit evaluation (no dict access happens once an
earlier conjunct is falsy). -/
def checkHealthCond (ok : Bool) (result : Json) : Except PyError Bool :=
  if !ok then .ok false
  else do
    let success ← pyGet1 result "success"
    if !success.truthy then .ok false
    else do
      let data ← pyGet result "data" (.obj [])
      let status ← pyGet1 data "status"
      .ok (pyEqStr status "healthy")

/-- Lines 157-165 of `check_health`, the pure part: parse the body, test
the healthy condition; when it holds read the nested latency field
(`result["data"]["checks"]["solana"]["latency"]`, a `KeyError` when a level
is missing) and report `True`, otherwise report `False`; in both cases the
log line printed just before returning is produced alongside. -/
def checkHealthHandle (r : HttpResponse) : Except PyError (Bool × String) := do
  let result ← match r.body with
                | some j => Except.ok j
                | none => Except.error .contentTypeError
  let cond ← checkHealthCond r.ok result
  if cond then do
    let data ← pyIndex result "data"
    let checks ← pyIndex data "checks"
    let solana ← pyIndex checks "solana"
    let latency ← pyIndex solana "latency"
    Except.ok (true, "✅ Phase Staking API is healthy (latency: " ++ latency.pyStr ++ "ms)")
  else
    Except.ok (false, "❌ Phase Staking API is unhealthy")

/-- `check_health` (lines 151-165): guard on the session, GET `/health`,
handle the response, print the status line, return the boolean. -/
def PhaseStakingClient.check_health (c : PhaseStakingClient)
    (net : HttpRequest → NetResult) : Eff Bool :=
  if !c.session then
    throwE (.runtimeError usageErrorMsg)
  else do
    let response ← sessionRequest net (healthRequest c)
    let outcome ← liftE (checkHealthHandle response)
    pyPrint outcome.2
    pureE outcome.1

/-- A Solana keypair; the program only ever reads `public_key` (always via
`str()`, so it is kept as a string here). -/
structure Keypair where
  public_key : String

/-- An abstract in-memory `solana.transaction.Transaction`. -/
structure SolanaTx where
  tag : Nat
deriving DecidableEq

/-- The library functions the program delegates to (base64, keypair
loading, transaction deserialization and signing).  They are external
collaborators, so they are oracles: each may raise. -/
structure CryptoLib where
  b64decode : String → Except PyError (List Nat)
  from_secret_key : List Nat → Except PyError Keypair
  deserialize : List Nat → Except PyError SolanaTx
  sign : SolanaTx → Keypair → Except PyError SolanaTx

/-- The Solana RPC client (`AsyncClient`), an external collaborator: each
method may raise, and each call is recorded as an event. -/
structure AsyncClientModel where
  get_balance : String → Except PyError Json
  send_transaction : SolanaTx → Except PyError Json
  confirm_transaction : Json → Except PyError Json

/-- `solana_client.get_balance(wallet)` with its event. -/
def AsyncClientModel.get_balance_call (s : AsyncClientModel) (wallet : String) : Eff Json :=
  (s.get_balance wallet, ⟨[.rpcGetBalance wallet], []⟩)

/-- `solana_client.send_transaction(transaction)` with its event. -/
def AsyncClientModel.send_transaction_call (s : AsyncClientModel) (tx : SolanaTx) : Eff Json :=
  (s.send_transaction tx, ⟨[.rpcSendTransaction], []⟩)

/-- `solana_client.confirm_transaction(signature)` with its event. -/
def AsyncClientModel.confirm_transaction_call (s : AsyncClientModel) (sig : Json) : Eff Json :=
  (s.confirm_transaction sig, ⟨[.rpcConfirmTransaction], []⟩)

/-- `base64.b64decode(value)`: a `TypeError` unless the value is a string,
otherwise the library decodes it (and may raise). -/
def b64decodeCall (lib : CryptoLib) (j : Json) : Eff (List Nat) :=
  match j with
  | .str s => liftE (lib.b64decode s)
  | _ => throwE .typeError

/-- `transaction.sign(agent_keypair)` with its event. -/
def signCall (lib : CryptoLib) (tx : SolanaTx) (kp : Keypair) : Eff SolanaTx :=
  (lib.sign tx kp, ⟨[.signTransaction], []⟩)

/-- The dictionary returned by a successful `execute_staking` run
(lines 140-145). -/
structure StakingOutcome where
  signature : Json
  stake_account : Json
  validator : Json
  estimated_apy : Json

/-- The body of the `try` block of `execute_staking` (lines 102-145):
build, log metadata, decode and deserialize, sign, submit, confirm,
assemble the outcome record. -/
def executeStakingTry (c : PhaseStakingClient) (net : HttpRequest → NetResult)
    (solana_client : AsyncClientModel) (lib : CryptoLib) (agent_keypair : Keypair)
    (stake_amount : ℚ) (validator_vote_account : Option String) : Eff StakingOutcome := do
  let transaction_data ← c.build_stake_transaction net agent_keypair.public_key
    stake_amount validator_vote_account
  pyPrint "✅ Transaction built successfully"
  let md ← liftE (pyIndex transaction_data "metadata")
  let sa ← liftE (pyIndex md "stakeAccount")
  pyPrint ("📝 Stake Account: " ++ sa.pyStr)
  let md ← liftE (pyIndex transaction_data "metadata")
  let vd ← liftE (pyIndex md "validator")
  pyPrint ("🎯 Validator: " ++ vd.pyStr)
  let md ← liftE (pyIndex transaction_data "metadata")
  let apy ← liftE (pyIndex md "estimatedApy")
  pyPrint ("📈 Estimated APY: " ++ apy.pyStr ++ "%")
  let md ← liftE (pyIndex transaction_data "metadata")
  let fees ← liftE (pyIndex md "fees")
  let txFee ← liftE (pyIndex fees "transactionFee")
  let rakeFee ← liftE (pyIndex fees "rakeFee")
  let total_fees ← liftE (pyAdd txFee rakeFee)
  pyPrint ("💰 Total Fees: " ++ total_fees.pyStr ++ " lamports")
  let txObj ← liftE (pyIndex transaction_data "transaction")
  let serialized_tx ← liftE (pyIndex txObj "serialized")
  let transaction_bytes ← b64decodeCall lib serialized_tx
  let transaction ← liftE (lib.deserialize transaction_bytes)
  let transaction ← signCall lib transaction agent_keypair
  pyPrint "✍️ Transaction signed, sending to network..."
  let response ← solana_client.send_transaction_call transaction
  let signature ← liftE (pyIndex response "result")
  let _ ← solana_client.confirm_transaction_call signature
  pyPrint "🎉 Staking successful!"
  pyPrint ("🔗 Transaction: https://explorer.solana.com/tx/" ++ signature.pyStr)
  let md ← liftE (pyIndex transaction_data "metadata")
  let sa2 ← liftE (pyIndex md "stakeAccount")
  pyPrint ("📊 Stake Account: https://explorer.solana.com/address/" ++ sa2.pyStr)
  let md ← liftE (pyIndex transaction_data "metadata")
  let out_sa ← liftE (pyIndex md "stakeAccount")
  let md ← liftE (pyIndex transaction_data "metadata")
  let out_v ← liftE (pyIndex md "validator")
  let md ← liftE (pyIndex transaction_data "metadata")
  let out_apy ← liftE (pyIndex md "estimatedApy")
  pureE { signature := signature
          stake_account := out_sa
          validator := out_v
          estimated_apy := out_apy }

/-- `execute_staking` (lines 81-149): announce, run the try block; any
exception is logged with the failure marker and re-raised unchanged. -/
def PhaseStakingClient.execute_staking (c : PhaseStakingClient)
    (net : HttpRequest → NetResult) (solana_client : AsyncClientModel)
    (lib : CryptoLib) (agent_keypair : Keypair) (stake_amount : ℚ)
    (validator_vote_account : Option String) : Eff StakingOutcome := do
  pyPrint ("🚀 Building stake transaction for " ++ toString stake_amount ++ " SOL...")
  tryE (executeStakingTry c net solana_client lib agent_keypair stake_amount
        validator_vote_account)
    (fun error => do
      pyPrint ("❌ Staking failed: " ++ error.message)
      throwE error)

/-- Python truthiness of an optional environment variable: unset or empty
means falsy (`if not api_key or not agent_private_key`). -/
def optTruthy : Option String → Bool
  | none => false
  | some s => s != ""

/-- The result of one `main` run, distinguishing its three return paths. -/
inductive MainResult where
  /-- early return: a required environment variable is unset or empty -/
  | configError : MainResult
  /-- early return at line 201: balance below 1.1 SOL (the
  InsufficientBalanceError of the specification, logged then aborted) -/
  | insufficientBalance (balance_sol : ℚ) : MainResult
  /-- the staking workflow ran to completion -/
  | completed (outcome : StakingOutcome) : MainResult

/-- `async with PhaseStakingClient(...) as phase_client:` — enter creates
the session; `__aexit__` runs on every exit path, closing the session when
it exists, and any exception of the body then propagates. -/
def with_client {α : Type} (c : PhaseStakingClient) (body : PhaseStakingClient → Eff α) : Eff α :=
  let entered := c.aenter
  let r := body entered
  let closeTrace : Trace := if entered.session then ⟨[.sessionClosed], []⟩ else Trace.empty
  (r.1, (⟨[.sessionOpened], []⟩ : Trace) ++ r.2 ++ closeTrace)

/-- The rendering of `json.dumps(result, indent=2)` (indentation elided). -/
def StakingOutcome.dumps (o : StakingOutcome) : String :=
  (Json.obj [("signature", o.signature), ("stake_account", o.stake_account),
             ("validator", o.validator), ("estimated_apy", o.estimated_apy)]).pyStr

/-- The body of the `async with` block of `main` (lines 183-214): load the
keypair, check health, query the balance, abort below 1.1 SOL, otherwise
stake 1 SOL. -/
def mainBody (phase_client : PhaseStakingClient) (net : HttpRequest → NetResult)
    (solana_client : AsyncClientModel) (lib : CryptoLib)
    (agent_private_key : String) : Eff MainResult := do
  let key_bytes ← liftE (lib.b64decode agent_private_key)
  let agent_keypair ← liftE (lib.from_secret_key key_bytes)
  let _health ← phase_client.check_health net
  let balance_response ← solana_client.get_balance_call agent_keypair.public_key
  let balance_result ← liftE (pyIndex balance_response "result")
  let balance_value ← liftE (pyIndex balance_result "value")
  let balance_sol ← liftE (pyDiv balance_value 1000000000)
  pyPrint ("💰 Agent Balance: " ++ toString balance_sol ++ " SOL")
  -- the Python literal 1.1 denotes the rational 11/10 here (written with
  -- `mkRat` so that it evaluates; `11/10` would use the irreducible division)
  if balance_sol < mkRat 11 10 then do
    pyPrint ("❌ Insufficient balance. Need at least 1.1 SOL (have " ++
             toString balance_sol ++ " SOL)")
    pureE (MainResult.insufficientBalance balance_sol)
  else do
    let stake_amount : ℚ := 1
    let result ← phase_client.execute_staking net solana_client lib agent_keypair
      stake_amount none
    pyPrint "🏁 Staking Complete:"
    pyPrint result.dumps
    pureE (MainResult.completed result)

namespace Staking

/-- `main` (lines 168-220): configuration guard, scoped client session
around the workflow, an except clause that logs and re-raises, and a
finally clause that closes the RPC client. -/
def main (api_key agent_private_key : Option String)
    (net : HttpRequest → NetResult) (solana_client : AsyncClientModel)
    (lib : CryptoLib) : Eff MainResult :=
  if !(optTruthy api_key) || !(optTruthy agent_private_key) then do
    pyPrint "❌ Please set PHASE_API_KEY and AGENT_PRIVATE_KEY environment variables"
    pureE MainResult.configError
  else
    let inner := with_client
      (PhaseStakingClient.init (api_key.getD "") "https://staking-api.phase.com")
      (fun phase_client =>
        mainBody phase_client net solana_client lib (agent_private_key.getD ""))
    let afterTry := tryE inner (fun error => do
      pyPrint ("❌ Error: " ++ error.message)
      throwE error)
    (afterTry.1, afterTry.2 ++ (⟨[.rpcClientClosed], []⟩ : Trace))

end Staking

/-! Concrete fixtures used to instantiate theorems at explicit inputs. -/

/-- Fixture: a network whose connection always fails. -/
def netConnectRefused : HttpRequest → NetResult :=
  fun _ => .failure "Cannot connect to host"

/-- Fixture: every request is answered HTTP 400 with a rate-limit error body. -/
def netRateLimited : HttpRequest → NetResult :=
  fun _ => .response ⟨400, some (.obj [("error", .obj [("message", .str "rate limited")])])⟩

/-- Fixture: the healthy `/health` response. -/
def healthyResponse : HttpResponse :=
  ⟨200, some (.obj [("success", .bool true),
    ("data", .obj [("status", .str "healthy"),
      ("checks", .obj [("solana", .obj [("latency", .num 42)])])])])⟩

/-- Fixture: every request is answered with the healthy `/health` response. -/
def netHealthy : HttpRequest → NetResult :=
  fun _ => .response healthyResponse

/-- Fixture: the JSON `data` payload of a successful `/stake/build` response. -/
def buildOkData : Json :=
  .obj [("transaction", .obj [("serialized", .str "c2VyaWFsaXplZA==")]),
        ("metadata", .obj [("stakeAccount", .str "StakeAcc111"),
          ("validator", .str "Validator111"),
          ("estimatedApy", .num 7),
          ("fees", .obj [("transactionFee", .num 5000), ("rakeFee", .num 1000)])])]

/-- Fixture: every request is answered with a successful `/stake/build` response. -/
def netBuildOk : HttpRequest → NetResult :=
  fun _ => .response ⟨200, some (.obj [("data", buildOkData)])⟩

/-- Fixture: deterministic stand-ins for the library calls (base64, keypair
loading, deserialization, signing). -/
def libStub : CryptoLib :=
  ⟨fun _ => .ok [1, 2, 3],
   fun _ => .ok ⟨"AgentWallet111"⟩,
   fun _ => .ok ⟨0⟩,
   fun tx _ => .ok ⟨tx.tag + 1⟩⟩

/-- Fixture: an RPC client reporting a balance of 1.05 SOL and accepting
submissions. -/
def solanaStub : AsyncClientModel :=
  ⟨fun _ => .ok (.obj [("result", .obj [("value", .num 1050000000)])]),
   fun _ => .ok (.obj [("result", .str "Signature111")]),
   fun _ => .ok .null⟩

/-- Fixture: an initialized client (session open), as obtained inside the
`async with` block. -/
def clientReady : PhaseStakingClient :=
  ⟨"key", "https://staking-api.phase.com", true⟩

/-! Helper lemmas about traces and the effect monad. -/

@[simp] theorem Trace.append_events (t₁ t₂ : Trace) :
    (t₁ ++ t₂).events = t₁.events ++ t₂.events := rfl

@[simp] theorem Trace.append_log (t₁ t₂ : Trace) :
    (t₁ ++ t₂).log = t₁.log ++ t₂.log := rfl

@[simp] theorem Trace.mk_append (e₁ e₂ : List Event) (l₁ l₂ : List String) :
    (⟨e₁, l₁⟩ : Trace) ++ ⟨e₂, l₂⟩ = ⟨e₁ ++ e₂, l₁ ++ l₂⟩ := rfl

@[simp] theorem Trace.empty_events : Trace.empty.events = [] := rfl

@[simp] theorem Trace.empty_log : Trace.empty.log = [] := rfl

@[simp] theorem eff_bind {α β : Type} (x : Eff α) (f : α → Eff β) :
    x >>= f = bindE x f := rfl

@[simp] theorem bindE_ok {α β : Type} (a : α) (t : Trace) (f : α → Eff β) :
    bindE (Except.ok a, t) f = ((f a).1, t ++ (f a).2) := rfl

@[simp] theorem bindE_error {α β : Type} (e : PyError) (t : Trace) (f : α → Eff β) :
    bindE (Except.error e, t) f = (Except.error e, t) := rfl

@[simp] theorem liftE_ok {α : Type} (a : α) :
    liftE (α := α) (Except.ok a) = (Except.ok a, Trace.empty) := rfl

@[simp] theorem liftE_error {α : Type} (e : PyError) :
    liftE (α := α) (Except.error e) = (Except.error e, Trace.empty) := rfl

@[simp] theorem except_bind_ok {α β : Type} (a : α) (f : α → Except PyError β) :
    (Except.ok a >>= f) = f a := rfl

@[simp] theorem except_bind_error {α β : Type} (e : PyError) (f : α → Except PyError β) :
    ((Except.error e : Except PyError α) >>= f) = Except.error e := rfl

/-- A successful build emits exactly its one HTTP request. -/
theorem build_stake_transaction_events (c : PhaseStakingClient)
    (net : HttpRequest → NetResult) (w : String) (amt : ℚ) (v : Option String)
    (h : c.session = true) :
    (c.build_stake_transaction net w amt v).2.events
      = [.httpCall (stakeBuildRequest c w amt v)] := by
  unfold PhaseStakingClient.build_stake_transaction
  rw [h]
  rcases hr : net (stakeBuildRequest c w amt v) with msg | r <;>
    simp [sessionRequest, hr, liftE]

/-- Claim C7: calling `build_stake_transaction` before the session has been
initialized raises the usage `RuntimeError` and performs no network call at
all (empty trace). -/
theorem build_stake_transaction_uninitialized_usage_error
    (api_key base_url agent_wallet : String) (stake_amount : ℚ)
    (validator : Option String) (net : HttpRequest → NetResult) :
    (PhaseStakingClient.init api_key base_url).build_stake_transaction net
      agent_wallet stake_amount validator
      = (.error (.runtimeError usageErrorMsg), Trace.empty) := rfl

/-- Claim C10: calling `check_health` before the session has been
initialized raises the usage `RuntimeError` (it does not return `False`),
and performs no network call at all. -/
theorem check_health_uninitialized_usage_error
    (api_key base_url : String) (net : HttpRequest → NetResult) :
    (PhaseStakingClient.init api_key base_url).check_health net
      = (.error (.runtimeError usageErrorMsg), Trace.empty) := rfl

/-- Claim C8: every call of `build_stake_transaction` on an initialized
client records exactly one request: an authenticated POST to
`{base}/stake/build` whose headers carry the bearer token and whose JSON
body holds the wallet under `agentWallet`, the amount under `stakeAmount`,
and `validatorVoteAccount` exactly when a validator was given. -/
theorem build_stake_transaction_request_shape
    (k u w : String) (amt : ℚ) (validator : Option String)
    (net : HttpRequest → NetResult) :
    (PhaseStakingClient.build_stake_transaction ⟨k, u, true⟩ net w amt validator).2.events
      = [.httpCall (stakeBuildRequest ⟨k, u, true⟩ w amt validator)]
    ∧ (stakeBuildRequest ⟨k, u, true⟩ w amt validator).method = "POST"
    ∧ (stakeBuildRequest ⟨k, u, true⟩ w amt validator).url = u ++ "/stake/build"
    ∧ ("Authorization", "Bearer " ++ k) ∈ (stakeBuildRequest ⟨k, u, true⟩ w amt validator).headers
    ∧ ∃ fields, (stakeBuildRequest ⟨k, u, true⟩ w amt validator).body = some (.obj fields)
        ∧ Json.lookup fields "agentWallet" = some (.str w)
        ∧ Json.lookup fields "stakeAmount" = some (.num amt)
        ∧ Json.lookup fields "validatorVoteAccount" = validator.map Json.str := by
  refine ⟨build_stake_transaction_events _ _ _ _ _ rfl, rfl, rfl, ?_, ?_⟩
  · simp [stakeBuildRequest]
  · cases validator <;>
      exact ⟨_, rfl, by simp [Json.lookup], by simp [Json.lookup], by simp [Json.lookup]⟩

/-- On an initialized client whose request gets a response, the result of
`build_stake_transaction` is the handling of that response. -/
theorem build_stake_transaction_result (c : PhaseStakingClient)
    (net : HttpRequest → NetResult) (w : String) (amt : ℚ) (v : Option String)
    (r : HttpResponse) (h : c.session = true)
    (hnet : net (stakeBuildRequest c w amt v) = .response r) :
    (c.build_stake_transaction net w amt v).1 = handleBuildResponse r := by
  unfold PhaseStakingClient.build_stake_transaction
  rw [h]
  simp [sessionRequest, hnet, liftE]

/-- Claim C2, counterexample: for the HTTP 400 response whose body is
`error.message = "rate limited"`, the raised error message is the prefixed
string `"API Error: rate limited"`, not the verbatim server message. -/
theorem build_api_error_message_not_verbatim :
    (clientReady.build_stake_transaction netRateLimited "AgentWallet111" 1 none).1
      = .error (.exception "API Error: rate limited")
    ∧ "API Error: rate limited" ≠ "rate limited" :=
  ⟨rfl, by decide⟩

/-- Claim C2, amended: on any non-success HTTP response whose body parses
as a JSON object, `build_stake_transaction` raises an error whose message
is the literal prefix `"API Error: "` followed by the server-provided
message (or by the fallback `"Unknown API error"` when the error object or
its message is absent). -/
theorem build_stake_transaction_api_error_message
    (k u w : String) (amt : ℚ) (validator : Option String)
    (net : HttpRequest → NetResult) (r : HttpResponse) (fields : List (String × Json))
    (hnet : net (stakeBuildRequest ⟨k, u, true⟩ w amt validator) = .response r)
    (hok : r.ok = false)
    (hbody : r.body = some (.obj fields)) :
    (Json.lookup fields "error" = none →
      (PhaseStakingClient.build_stake_transaction ⟨k, u, true⟩ net w amt validator).1
        = .error (.exception "API Error: Unknown API error"))
    ∧ (∀ (efields : List (String × Json)) (msg : String),
        Json.lookup fields "error" = some (.obj efields) →
        Json.lookup efields "message" = some (.str msg) →
        (PhaseStakingClient.build_stake_transaction ⟨k, u, true⟩ net w amt validator).1
          = .error (.exception ("API Error: " ++ msg)))
    ∧ (∀ efields : List (String × Json),
        Json.lookup fields "error" = some (.obj efields) →
        Json.lookup efields "message" = none →
        (PhaseStakingClient.build_stake_transaction ⟨k, u, true⟩ net w amt validator).1
          = .error (.exception "API Error: Unknown API error")) := by
  rw [show ((PhaseStakingClient.build_stake_transaction ⟨k, u, true⟩ net w amt validator).1
        = handleBuildResponse r) from
      build_stake_transaction_result _ _ _ _ _ _ rfl hnet]
  refine ⟨fun herr => ?_, fun efields msg herr hmsg => ?_, fun efields herr hmsg => ?_⟩ <;>
    simp [handleBuildResponse, hok, hbody, pyGet, Json.lookup, herr, Json.pyStr, *]

/-- Claim C2, amended, witness: the rate-limited 400 response produces the
message `"API Error: rate limited"`. -/
theorem build_stake_transaction_api_error_message_witness :
    (PhaseStakingClient.build_stake_transaction ⟨"key", "https://staking-api.phase.com", true⟩
        netRateLimited "AgentWallet111" 1 none).1
      = .error (.exception "API Error: rate limited") :=
  (build_stake_transaction_api_error_message "key" "https://staking-api.phase.com"
      "AgentWallet111" 1 none netRateLimited
      ⟨400, some (.obj [("error", .obj [("message", .str "rate limited")])])⟩
      [("error", .obj [("message", .str "rate limited")])]
      rfl rfl rfl).2.1
    [("message", .str "rate limited")] "rate limited" rfl rfl

/-- On an initialized client whose request gets a response, the result of
`check_health` is the first component of the handling of that response. -/
theorem check_health_result (c : PhaseStakingClient)
    (net : HttpRequest → NetResult) (r : HttpResponse) (h : c.session = true)
    (hnet : net (healthRequest c) = .response r) :
    (c.check_health net).1 = (checkHealthHandle r).map Prod.fst := by
  unfold PhaseStakingClient.check_health
  rw [h]
  rcases hh : checkHealthHandle r with e | ⟨b, m⟩ <;>
    simp [sessionRequest, hnet, hh, pureE, pyPrint, Except.map]

/-- Claim C3, counterexample: with an initialized session, a network
failure during the health check propagates as an exception; `check_health`
returns neither `False` nor `True`. -/
theorem check_health_network_failure_raises :
    (clientReady.check_health netConnectRefused).1
      = .error (.clientError "Cannot connect to host")
    ∧ (clientReady.check_health netConnectRefused).1 ≠ .ok false
    ∧ (clientReady.check_health netConnectRefused).1 ≠ .ok true :=
  ⟨rfl, by decide, by decide⟩

/-- Characterization of the successful health check on a parsed JSON
object body: the handler reports `True` exactly when the response is ok,
the `success` field is truthy, the nested status is exactly `"healthy"`,
and the `data.checks.solana.latency` path exists. -/
theorem checkHealthHandle_true_iff (r : HttpResponse) (fs : List (String × Json))
    (hbody : r.body = some (.obj fs)) :
    (∃ m, checkHealthHandle r = .ok (true, m))
      ↔ (r.ok = true
         ∧ ((Json.lookup fs "success").getD .null).truthy = true
         ∧ ∃ dfs, Json.lookup fs "data" = some (.obj dfs)
             ∧ Json.lookup dfs "status" = some (.str "healthy")
             ∧ ∃ cfs, Json.lookup dfs "checks" = some (.obj cfs)
               ∧ ∃ sfs, Json.lookup cfs "solana" = some (.obj sfs)
                 ∧ (Json.lookup sfs "latency").isSome = true) := by
  unfold checkHealthHandle
  rw [hbody]
  simp only [except_bind_ok]
  cases hok : r.ok with
  | false => simp [checkHealthCond, hok]
  | true =>
    simp only [checkHealthCond, hok, Bool.not_true, Bool.false_eq_true, if_false,
      pyGet1, pyGet, except_bind_ok]
    cases hsucc : ((Json.lookup fs "success").getD Json.null).truthy with
    | false => simp [hsucc]
    | true =>
      simp only [hsucc, Bool.not_true, Bool.false_eq_true, if_false]
      rcases hdata : Json.lookup fs "data" with _ | dval
      · simp [hdata, pyEqStr, Json.lookup]
      · cases dval with
        | obj dfs =>
          simp only [Option.getD_some, except_bind_ok]
          rcases hst : Json.lookup dfs "status" with _ | sval
          · simp [hdata, hst, pyEqStr]
          · cases sval with
            | str t =>
              by_cases ht : t = "healthy"
              · subst ht
                simp only [hst, Option.getD_some, pyEqStr, beq_self_eq_true, if_true,
                  pyIndex, hdata, except_bind_ok]
                rcases hch : Json.lookup dfs "checks" with _ | cval
                · simp [hdata, hst, hch]
                · cases cval with
                  | obj cfs =>
                    simp only [except_bind_ok, pyIndex]
                    rcases hso : Json.lookup cfs "solana" with _ | sval2
                    · simp [hdata, hst, hch, hso]
                    · cases sval2 with
                      | obj sfs =>
                        simp only [except_bind_ok, pyIndex]
                        rcases hlat : Json.lookup sfs "latency" with _ | lat <;>
                          simp [hdata, hst, hch, hso, hlat]
                      | _ => simp [hdata, hst, hch, hso]
                  | _ => simp [hdata, hst, hch]
              · simp [hdata, hst, pyEqStr, ht]
            | _ => simp [hdata, hst, pyEqStr]
        | _ => simp [hdata]

/-- Claim C3, amended: with an initialized session, when the HTTP call
completes and its body parses as a JSON object, `check_health` returns
`True` iff the response is ok, `success` is truthy, the nested status
equals exactly `"healthy"`, and the nested latency path exists (on that
path the code reads it); every other parsed-object response yields `False`
or a raised mapping error, and a transport failure or unparseable body
raises instead of returning `False`. -/
theorem check_health_true_iff (k u : String) (net : HttpRequest → NetResult)
    (r : HttpResponse) (fs : List (String × Json))
    (hnet : net (healthRequest ⟨k, u, true⟩) = .response r)
    (hbody : r.body = some (.obj fs)) :
    ((PhaseStakingClient.check_health ⟨k, u, true⟩ net).1 = .ok true
      ↔ (r.ok = true
         ∧ ((Json.lookup fs "success").getD .null).truthy = true
         ∧ ∃ dfs, Json.lookup fs "data" = some (.obj dfs)
             ∧ Json.lookup dfs "status" = some (.str "healthy")
             ∧ ∃ cfs, Json.lookup dfs "checks" = some (.obj cfs)
               ∧ ∃ sfs, Json.lookup cfs "solana" = some (.obj sfs)
                 ∧ (Json.lookup sfs "latency").isSome = true)) := by
  rw [check_health_result _ _ _ rfl hnet, ← checkHealthHandle_true_iff r fs hbody]
  rcases checkHealthHandle r with e | ⟨b, m⟩
  · simp [Except.map]
  · cases b <;> simp [Except.map]

/-- Claim C3, amended, witness: the healthy fixture response makes
`check_health` return `True`, via the characterization. -/
theorem check_health_true_iff_witness :
    (PhaseStakingClient.check_health ⟨"key", "https://staking-api.phase.com", true⟩
        netHealthy).1 = .ok true :=
  (check_health_true_iff "key" "https://staking-api.phase.com" netHealthy
      healthyResponse
      [("success", .bool true),
       ("data", .obj [("status", .str "healthy"),
         ("checks", .obj [("solana", .obj [("latency", .num 42)])])])]
      rfl rfl).mpr
    ⟨rfl, rfl,
     [("status", .str "healthy"),
      ("checks", .obj [("solana", .obj [("latency", .num 42)])])], rfl, rfl,
     [("solana", .obj [("latency", .num 42)])], rfl,
     [("latency", .num 42)], rfl, rfl⟩

/-- The trace of `build_stake_transaction` holds at most its own HTTP
request — never an RPC, signing, or submission event. -/
theorem build_stake_transaction_events_cases (c : PhaseStakingClient)
    (net : HttpRequest → NetResult) (w : String) (amt : ℚ) (v : Option String) :
    (c.build_stake_transaction net w amt v).2.events = []
    ∨ (c.build_stake_transaction net w amt v).2.events
        = [.httpCall (stakeBuildRequest c w amt v)] := by
  cases hs : c.session
  · left
    unfold PhaseStakingClient.build_stake_transaction
    rw [hs]
    rfl
  · right
    exact build_stake_transaction_events _ _ _ _ _ hs

/-- Claim C4: when the build step fails, `execute_staking` propagates that
failure and the run contains no signing, submission, or confirmation call
at all. -/
theorem execute_staking_no_submit_on_build_failure
    (c : PhaseStakingClient) (net : HttpRequest → NetResult)
    (solana_client : AsyncClientModel) (lib : CryptoLib) (kp : Keypair)
    (amt : ℚ) (validator : Option String) (e : PyError)
    (hbuild : (c.build_stake_transaction net kp.public_key amt validator).1 = .error e) :
    (c.execute_staking net solana_client lib kp amt validator).1 = .error e
    ∧ Event.signTransaction ∉ (c.execute_staking net solana_client lib kp amt validator).2.events
    ∧ Event.rpcSendTransaction ∉ (c.execute_staking net solana_client lib kp amt validator).2.events
    ∧ Event.rpcConfirmTransaction ∉ (c.execute_staking net solana_client lib kp amt validator).2.events := by
  have hevents := build_stake_transaction_events_cases c net kp.public_key amt validator
  unfold PhaseStakingClient.execute_staking executeStakingTry
  rcases hb : c.build_stake_transaction net kp.public_key amt validator with ⟨res, t⟩
  rw [hb] at hbuild hevents
  simp only at hbuild
  subst hbuild
  rcases hevents with h | h
  · have hev : t.events = [] := h
    simp [tryE, pyPrint, throwE, pureE, hev]
  · have hev : t.events = [Event.httpCall (stakeBuildRequest c kp.public_key amt validator)] := h
    simp [tryE, pyPrint, throwE, pureE, hev]

/-- Claim C4, witness: a connection failure on the build request leaves a
run with no signing, submission, or confirmation call. -/
theorem execute_staking_no_submit_on_build_failure_witness :
    (clientReady.execute_staking netConnectRefused solanaStub libStub
        ⟨"AgentWallet111"⟩ 1 none).1 = .error (.clientError "Cannot connect to host")
    ∧ Event.signTransaction
        ∉ (clientReady.execute_staking netConnectRefused solanaStub libStub
            ⟨"AgentWallet111"⟩ 1 none).2.events
    ∧ Event.rpcSendTransaction
        ∉ (clientReady.execute_staking netConnectRefused solanaStub libStub
            ⟨"AgentWallet111"⟩ 1 none).2.events
    ∧ Event.rpcConfirmTransaction
        ∉ (clientReady.execute_staking netConnectRefused solanaStub libStub
            ⟨"AgentWallet111"⟩ 1 none).2.events :=
  execute_staking_no_submit_on_build_failure clientReady netConnectRefused
    solanaStub libStub ⟨"AgentWallet111"⟩ 1 none
    (.clientError "Cannot connect to host") rfl

/-- Claim C5: whenever `execute_staking` fails, the failure is exactly the
error raised inside its try block — propagated unchanged, not substituted —
and the log contains the failure-marker line for that error. -/
theorem execute_staking_error_logged_and_propagated
    (c : PhaseStakingClient) (net : HttpRequest → NetResult)
    (solana_client : AsyncClientModel) (lib : CryptoLib) (kp : Keypair)
    (amt : ℚ) (validator : Option String) (e : PyError)
    (h : (c.execute_staking net solana_client lib kp amt validator).1 = .error e) :
    (executeStakingTry c net solana_client lib kp amt validator).1 = .error e
    ∧ ("❌ Staking failed: " ++ e.message)
        ∈ (c.execute_staking net solana_client lib kp amt validator).2.log := by
  unfold PhaseStakingClient.execute_staking at *
  rcases ht : executeStakingTry c net solana_client lib kp amt validator with ⟨res, t⟩
  rw [ht] at h
  cases res with
  | ok a => simp [tryE, pyPrint] at h
  | error e2 =>
    have he : e2 = e := by simpa [tryE, pyPrint, throwE] using h
    subst he
    simp [tryE, pyPrint, throwE]

/-- Claim C5, witness: the connection-failure error is logged with the
failure marker and re-raised unchanged. -/
theorem execute_staking_error_logged_and_propagated_witness :
    (executeStakingTry clientReady netConnectRefused solanaStub libStub
        ⟨"AgentWallet111"⟩ 1 none).1 = .error (.clientError "Cannot connect to host")
    ∧ ("❌ Staking failed: " ++ (PyError.clientError "Cannot connect to host").message)
        ∈ (clientReady.execute_staking netConnectRefused solanaStub libStub
            ⟨"AgentWallet111"⟩ 1 none).2.log :=
  execute_staking_error_logged_and_propagated clientReady netConnectRefused
    solanaStub libStub ⟨"AgentWallet111"⟩ 1 none
    (.clientError "Cannot connect to host") rfl

/-- Claim C9: a successful `execute_staking` run returns exactly the
signature taken from the submission response (`response["result"]`)
together with the stake account, validator and estimated yield copied from
the build metadata; the record is the single final value of the run. -/
theorem execute_staking_outcome_fields
    (k u : String) (net : HttpRequest → NetResult) (solana_client : AsyncClientModel)
    (lib : CryptoLib) (kp : Keypair) (amt : ℚ) (validator : Option String)
    (ser : String) (sa vd apy sig cr : Json) (f1 f2 : ℚ)
    (bs : List Nat) (tx tx2 : SolanaTx)
    (hbuild : (PhaseStakingClient.build_stake_transaction ⟨k, u, true⟩ net
          kp.public_key amt validator).1
        = .ok (.obj [("transaction", .obj [("serialized", .str ser)]),
                     ("metadata", .obj [("stakeAccount", sa), ("validator", vd),
                       ("estimatedApy", apy),
                       ("fees", .obj [("transactionFee", .num f1),
                                      ("rakeFee", .num f2)])])]))
    (hdec : lib.b64decode ser = .ok bs)
    (hdes : lib.deserialize bs = .ok tx)
    (hsig : lib.sign tx kp = .ok tx2)
    (hsend : solana_client.send_transaction tx2 = .ok (.obj [("result", sig)]))
    (hconf : solana_client.confirm_transaction sig = .ok cr) :
    (PhaseStakingClient.execute_staking ⟨k, u, true⟩ net solana_client lib kp
        amt validator).1
      = .ok { signature := sig, stake_account := sa, validator := vd,
              estimated_apy := apy } := by
  unfold PhaseStakingClient.execute_staking executeStakingTry
  rcases hb : PhaseStakingClient.build_stake_transaction ⟨k, u, true⟩ net
      kp.public_key amt validator with ⟨res, t⟩
  rw [hb] at hbuild
  simp only at hbuild
  subst hbuild
  simp [tryE, pyPrint, pureE, throwE, pyIndex, Json.lookup, pyAdd, Json.asNumber,
        b64decodeCall, signCall, AsyncClientModel.send_transaction_call,
        AsyncClientModel.confirm_transaction_call, hdec, hdes, hsig, hsend, hconf,
        liftE]

/-- Claim C9, witness: the fixture oracles produce exactly the record
assembled from the submission signature and the build metadata. -/
theorem execute_staking_outcome_fields_witness :
    (PhaseStakingClient.execute_staking ⟨"key", "https://staking-api.phase.com", true⟩
        netBuildOk solanaStub libStub ⟨"AgentWallet111"⟩ 1 none).1
      = .ok { signature := .str "Signature111", stake_account := .str "StakeAcc111",
              validator := .str "Validator111", estimated_apy := .num 7 } :=
  execute_staking_outcome_fields "key" "https://staking-api.phase.com" netBuildOk
    solanaStub libStub ⟨"AgentWallet111"⟩ 1 none
    "c2VyaWFsaXplZA==" (.str "StakeAcc111") (.str "Validator111") (.num 7)
    (.str "Signature111") .null 5000 1000 [1, 2, 3] ⟨0⟩ ⟨1⟩
    rfl rfl rfl rfl rfl rfl

/-- Claim C6: whenever `main` gets past its configuration guard, the
session is opened at workflow start and closed on every exit path —
whatever the oracles do, the trace contains the open and the close. -/
theorem main_session_scoped
    (api_key agent_private_key : Option String) (net : HttpRequest → NetResult)
    (solana_client : AsyncClientModel) (lib : CryptoLib)
    (hk : optTruthy api_key = true) (hsk : optTruthy agent_private_key = true) :
    Event.sessionOpened
      ∈ (Staking.main api_key agent_private_key net solana_client lib).2.events
    ∧ Event.sessionClosed
      ∈ (Staking.main api_key agent_private_key net solana_client lib).2.events := by
  unfold Staking.main
  rw [hk, hsk]
  simp only [Bool.not_true, Bool.or_self, Bool.false_eq_true, if_false]
  unfold with_client
  simp only []
  rw [show ((PhaseStakingClient.init (api_key.getD "")
      "https://staking-api.phase.com").aenter).session = true from rfl]
  rcases hb : mainBody ((PhaseStakingClient.init (api_key.getD "")
      "https://staking-api.phase.com").aenter) net solana_client lib
      (agent_private_key.getD "") with ⟨res, t⟩
  cases res <;> simp [tryE, pyPrint, throwE]

/-- Claim C6, witness: with failing oracles (connection refused), the
session is still opened and closed. -/
theorem main_session_scoped_witness :
    Event.sessionOpened
      ∈ (Staking.main (some "key") (some "sk") netConnectRefused solanaStub
          libStub).2.events
    ∧ Event.sessionClosed
      ∈ (Staking.main (some "key") (some "sk") netConnectRefused solanaStub
          libStub).2.events :=
  main_session_scoped (some "key") (some "sk") netConnectRefused solanaStub
    libStub rfl rfl

/-- Claim C1: in every run of `main` that reaches the balance query and
finds fewer than 1.1 SOL, the workflow stops on the insufficient-balance
path: it logs the insufficient-balance marker line, returns without
raising, and the complete event trace is exactly session open, the health
request, the balance query, session close and RPC-client close — no
`/stake/build` request, no signing, no submission. -/
theorem main_insufficient_balance_aborts
    (k sk : String) (hk : k ≠ "") (hsk : sk ≠ "")
    (net : HttpRequest → NetResult) (solana_client : AsyncClientModel)
    (lib : CryptoLib) (kb : List Nat) (kp : Keypair) (rH : HttpResponse)
    (hb : Bool) (hm : String) (lam : ℚ)
    (hdec : lib.b64decode sk = .ok kb)
    (hkp : lib.from_secret_key kb = .ok kp)
    (hnet : net (healthRequest ((PhaseStakingClient.init k
        "https://staking-api.phase.com").aenter)) = .response rH)
    (hhealth : checkHealthHandle rH = .ok (hb, hm))
    (hbal : solana_client.get_balance kp.public_key
        = .ok (.obj [("result", .obj [("value", .num lam)])]))
    (hlow : ratDiv lam 1000000000 < mkRat 11 10) :
    Staking.main (some k) (some sk) net solana_client lib
      = (.ok (.insufficientBalance (ratDiv lam 1000000000)),
         ⟨[.sessionOpened,
           .httpCall (healthRequest ((PhaseStakingClient.init k
             "https://staking-api.phase.com").aenter)),
           .rpcGetBalance kp.public_key, .sessionClosed, .rpcClientClosed],
          [hm,
           "💰 Agent Balance: " ++ toString (ratDiv lam 1000000000) ++ " SOL",
           "❌ Insufficient balance. Need at least 1.1 SOL (have "
             ++ toString (ratDiv lam 1000000000) ++ " SOL)"]⟩) := by
  unfold Staking.main
  rw [show optTruthy (some k) = true by simp [optTruthy, hk],
      show optTruthy (some sk) = true by simp [optTruthy, hsk]]
  simp only [Bool.not_true, Bool.or_self, Bool.false_eq_true, if_false, Option.getD_some]
  unfold with_client mainBody PhaseStakingClient.check_health
  simp only []
  rw [show ((PhaseStakingClient.init k
      "https://staking-api.phase.com").aenter).session = true from rfl]
  simp [sessionRequest, hnet, hdec, hkp, hhealth, hbal,
    AsyncClientModel.get_balance_call, pyIndex, Json.lookup, pyDiv, Json.asNumber,
    pyPrint, pureE, tryE, throwE, if_pos hlow, Trace.empty]

/-- Claim C1, witness: balance 1.05 SOL (1 050 000 000 lamports) aborts on
the insufficient-balance path with no call beyond the balance query. -/
theorem main_insufficient_balance_aborts_witness :
    Staking.main (some "key") (some "sk") netHealthy solanaStub libStub
      = (.ok (.insufficientBalance (ratDiv 1050000000 1000000000)),
         ⟨[.sessionOpened,
           .httpCall (healthRequest ((PhaseStakingClient.init "key"
             "https://staking-api.phase.com").aenter)),
           .rpcGetBalance "AgentWallet111", .sessionClosed, .rpcClientClosed],
          ["✅ Phase Staking API is healthy (latency: 42ms)",
           "💰 Agent Balance: " ++ toString (ratDiv 1050000000 1000000000) ++ " SOL",
           "❌ Insufficient balance. Need at least 1.1 SOL (have "
             ++ toString (ratDiv 1050000000 1000000000) ++ " SOL)"]⟩) :=
  main_insufficient_balance_aborts "key" "sk" (by decide) (by decide)
    netHealthy solanaStub libStub [1, 2, 3] ⟨"AgentWallet111"⟩ healthyResponse
    true "✅ Phase Staking API is healthy (latency: 42ms)" 1050000000
    rfl rfl rfl rfl rfl (by decide)

/-- `ratAdd` is rational addition. -/
theorem ratAdd_eq (a b : ℚ) : ratAdd a b = a + b := by
  have hda : ((a.den : ℚ)) ≠ 0 := Nat.cast_ne_zero.mpr a.den_nz
  have hdb : ((b.den : ℚ)) ≠ 0 := Nat.cast_ne_zero.mpr b.den_nz
  rw [ratAdd, Rat.divInt_eq_div]
  push_cast
  conv_rhs => rw [← Rat.num_div_den a, ← Rat.num_div_den b, div_add_div _ _ hda hdb]
  ring_nf

/-- `ratDiv` is rational division. -/
theorem ratDiv_eq (a b : ℚ) : ratDiv a b = a / b := by
  rcases eq_or_ne b 0 with hb | hb
  · subst hb
    simp [ratDiv]
  · have hda : ((a.den : ℚ)) ≠ 0 := Nat.cast_ne_zero.mpr a.den_nz
    have hdb : ((b.den : ℚ)) ≠ 0 := Nat.cast_ne_zero.mpr b.den_nz
    have hnb : ((b.num : ℚ)) ≠ 0 := by
      exact_mod_cast Rat.num_ne_zero.mpr hb
    have ha : (a.num : ℚ) = a * a.den := (div_eq_iff hda).mp (Rat.num_div_den a)
    have hb2 : (b.num : ℚ) = b * b.den := (div_eq_iff hdb).mp (Rat.num_div_den b)
    rw [ratDiv, Rat.divInt_eq_div]
    push_cast
    rw [div_eq_div_iff (mul_ne_zero hda hnb) hb, ha, hb2]
    ring
